import Mathlib

/-!
Shallow embedding of the media generation and artifact persistence engine of
the `openai_fastmcp` package: `openai_service.py` (service helpers, the
`AzureBlobUploader`), `app.py` (tool-level validation) and `config.py`
(configuration records).  Effects are made explicit: provider responses and
the nondeterministic inputs of the uploader (current UTC time, the random
128-bit value, whether the blob upload raises) are parameters, and every
operation additionally returns the list of external calls it performed.
-/

namespace OpenAIMCP

/-- ASCII lowercase of one character, mirroring Python `str.lower` on ASCII data. -/
def lowerChar (c : Char) : Char :=
  if 'A' ≤ c ∧ c ≤ 'Z' then Char.ofNat (c.toNat + 32) else c

/-- Model of Python `str.lower` for ASCII strings. -/
def pyLower (s : String) : String := String.mk (s.data.map lowerChar)

/-- Model of Python `s.strip(ch)`: drop leading and trailing copies of `ch`. -/
def pyStrip (s : String) (ch : Char) : String :=
  String.mk (((s.data.dropWhile (· == ch)).reverse.dropWhile (· == ch)).reverse)

/-- Model of Python `s.lstrip(ch)`: drop leading copies of `ch`. -/
def pyLstrip (s : String) (ch : Char) : String :=
  String.mk (s.data.dropWhile (· == ch))

/-- Model of Python `a or b` on an optional string: `None` and `""` are falsy. -/
def pyOr (a : Option String) (b : String) : String :=
  match a with
  | some s => if s = "" then b else s
  | none => b

/-- A single-quote character, used by the model of Python `repr`. -/
def squote : String := String.mk [Char.ofNat 39]

/-- Model of Python `repr` for strings that contain no quotes or escapes. -/
def pyRepr (s : String) : String := squote ++ s ++ squote

/-- `s` ends with `pat`. -/
def strEndsWith (pat s : String) : Prop := ∃ t, s = t ++ pat

/-- Decimal digit character for a value below 10. -/
def digitChar (d : Nat) : Char := Char.ofNat (48 + d)

/-- The ten decimal digit characters. -/
def decimalChars : List Char := "0123456789".data

/-- Zero-padded decimal rendering of `n` modulo `10 ^ w` on exactly `w`
characters; agrees with the zero-padded numeric `strftime` directives for
every in-range field value. -/
def padNum : Nat → Nat → List Char
  | 0, _ => []
  | w + 1, n => padNum w (n / 10) ++ [digitChar (n % 10)]

/-- Lowercase hexadecimal digit character for a value below 16. -/
def hexDigitChar (d : Nat) : Char :=
  if d < 10 then Char.ofNat (48 + d) else Char.ofNat (87 + d)

/-- The sixteen lowercase hexadecimal digit characters. -/
def lowerHexChars : List Char := "0123456789abcdef".data

/-- Zero-padded lowercase hexadecimal rendering on exactly `w` characters. -/
def hexPad : Nat → Nat → List Char
  | 0, _ => []
  | w + 1, n => hexPad w (n / 16) ++ [hexDigitChar (n % 16)]

/-- Model of `uuid.uuid4().hex`: the 32 lowercase hex characters of a 128-bit
value `n`. -/
def uuidHex (n : Nat) : String := String.mk (hexPad 32 n)

/-- A UTC wall-clock time to second precision, as observed by
`datetime.datetime.utcnow()`. -/
structure UtcTime where
  year : Nat
  month : Nat
  day : Nat
  hour : Nat
  minute : Nat
  second : Nat
  deriving DecidableEq, Repr

/-- Model of `utcnow().strftime` with the format used by
`AzureBlobUploader._build_blob_name` (`%Y%m%dT%H%M%S`). -/
def formatTimestamp (t : UtcTime) : String :=
  String.mk (padNum 4 t.year ++ padNum 2 t.month ++ padNum 2 t.day ++
    'T' :: (padNum 2 t.hour ++ padNum 2 t.minute ++ padNum 2 t.second))

/-- Backend variant of `OpenAIConfig.provider` (`config.py`). -/
inductive Provider
  | openai
  | azure
  deriving DecidableEq, Repr

/-- `OpenAIConfig` from `config.py`. -/
structure OpenAIConfig where
  provider : Provider
  api_key : String
  base_url : Option String
  organization : Option String
  azure_endpoint : Option String
  azure_api_version : Option String
  azure_ad_token : Option String
  chat_model : String
  image_model : String
  audio_model : String
  default_voice : String
  video_model : String
  deriving DecidableEq, Repr

/-- `AzureBlobStorageConfig` from `config.py`; the field `pathPfx` models the
source field `path_prefix`. -/
structure AzureBlobStorageConfig where
  connection_string : String
  container : String
  public_base_url : String
  pathPfx : Option String
  image_root : String
  audio_root : String
  video_root : String
  deriving DecidableEq, Repr

/-- `_DEFAULT_CONTENT_TYPE` from `openai_service.py`. -/
def DEFAULT_CONTENT_TYPE : String := "application/octet-stream"

/-- `_STORAGE_REQUIRED_MSG` from `openai_service.py` (the two adjacent Python
string literals concatenated). -/
def STORAGE_REQUIRED_MSG : String :=
  "Azure Blob Storage uploads are not configured. Set AZURE_STORAGE_CONNECTION_STRING, AZURE_BLOB_CONTAINER, and AZURE_BLOB_PUBLIC_BASE_URL to enable asset URLs."

/-- `OpenAIService._audio_content_type`: fixed lookup in `_AUDIO_CONTENT_TYPES`
with a generic binary fallback. -/
def audioContentType (response_format : String) : String :=
  match pyLower response_format with
  | "mp3" => "audio/mpeg"
  | "wav" => "audio/wav"
  | "flac" => "audio/flac"
  | "opus" => "audio/ogg"
  | "ogg" => "audio/ogg"
  | "aac" => "audio/aac"
  | "m4a" => "audio/mp4"
  | _ => DEFAULT_CONTENT_TYPE

/-- `OpenAIService._video_variant_meta`: extension and content type per
download variant, with a generic binary fallback. -/
def videoVariantMeta (variant : String) : String × String :=
  match pyLower variant with
  | "video" => ("mp4", "video/mp4")
  | "thumbnail" => ("png", "image/png")
  | "spritesheet" => ("json", "application/json")
  | _ => ("bin", DEFAULT_CONTENT_TYPE)

/-- The normalization line of `AzureBlobUploader._root_for_category`:
`(category or "media").strip("/") or "media"`. -/
def normalizeCategory (category : String) : String :=
  let base := if category = "" then "media" else category
  let stripped := pyStrip base '/'
  if stripped = "" then "media" else stripped

/-- `AzureBlobUploader._root_for_category`: the normalization above followed
by the fixed category-to-root mapping with literal passthrough. -/
def rootForCategory (cfg : AzureBlobStorageConfig) (category : String) : String :=
  match normalizeCategory category with
  | "images" => cfg.image_root
  | "image" => cfg.image_root
  | "audio" => cfg.audio_root
  | "videos" => cfg.video_root
  | "video" => cfg.video_root
  | other => other

/-- The nondeterministic inputs of one `AzureBlobUploader.upload` call: the
UTC time read by `_build_blob_name`, the random 128-bit value behind
`uuid.uuid4().hex`, and whether `upload_blob` raises. -/
structure UploadEnv where
  now : UtcTime
  rand : Nat
  fails : Bool
  deriving DecidableEq, Repr

/-- `AzureBlobUploader._build_blob_name`: `path_prefix?/category_root/
timestamp-hex.extension`, empty segments omitted, joined by a slash. -/
def buildBlobName (cfg : AzureBlobStorageConfig) (env : UploadEnv)
    (category extension : String) : String :=
  let timestamp := formatTimestamp env.now
  let unique := uuidHex env.rand
  let sanitized_category := rootForCategory cfg category
  let filename := timestamp ++ "-" ++ unique ++ "." ++ extension
  String.intercalate "/"
    (List.filter (fun seg => seg != "") [cfg.pathPfx.getD "", sanitized_category, filename])

/-- External calls made by an operation. -/
inductive Call
  | providerImage
  | providerAudio
  | providerVideoCreate
  | providerVideoDownload
  | blobUpload (category extension : String)
  deriving DecidableEq, Repr

/-- `AzureBlobUploader.upload`: builds the blob name, attempts the blob upload
(`env.fails` models `upload_blob` raising) and on success returns
`public_base_url/blob_name`. -/
def upload (cfg : AzureBlobStorageConfig) (env : UploadEnv)
    (category extension contentType : String) : Except Unit String × List Call :=
  let blobName := buildBlobName cfg env category extension
  (if env.fails then Except.error () else
    Except.ok (cfg.public_base_url ++ "/" ++ blobName),
   [Call.blobUpload category extension])

/-- The extension sanitization inside `OpenAIService._persist_media_bytes`:
`(extension.lstrip(".") or "bin").lower()`. -/
def sanitizeExtension (extension : String) : String :=
  let stripped := pyLstrip extension '.'
  pyLower (if stripped = "" then "bin" else stripped)

/-- `OpenAIService._persist_media_bytes`: empty (or absent) payload reports no
URL; a missing uploader raises the storage-required error; an upload failure
is swallowed and reports no URL.  An empty byte string and `None` are both
modelled by the empty list. -/
def persistMediaBytes (storage : Option AzureBlobStorageConfig) (env : UploadEnv)
    (payload : List Nat) (category extension : String) (contentType : Option String) :
    Except String (Option String) × List Call :=
  if payload = [] then (Except.ok none, [])
  else
    match storage with
    | none => (Except.error STORAGE_REQUIRED_MSG, [])
    | some cfg =>
      let ext := sanitizeExtension extension
      let r := upload cfg env category ext (pyOr contentType DEFAULT_CONTENT_TYPE)
      match r.1 with
      | Except.ok url => (Except.ok (some url), r.2)
      | Except.error _ => (Except.ok none, r.2)

/-- The six-bit value of one base64 alphabet character. -/
def b64val (c : Char) : Option Nat :=
  if 'A' ≤ c ∧ c ≤ 'Z' then some (c.toNat - 65)
  else if 'a' ≤ c ∧ c ≤ 'z' then some (c.toNat - 97 + 26)
  else if '0' ≤ c ∧ c ≤ '9' then some (c.toNat - 48 + 52)
  else if c = '+' then some 62
  else if c = '/' then some 63
  else none

/-- Regroups a list of six-bit values into bytes (3 bytes per 4 values, with
the usual truncation for a final group of 2 or 3 values). -/
def b64quanta : List Nat → List Nat
  | a :: b :: c :: d :: rest =>
    (a * 4 + b / 16) :: ((b % 16) * 16 + c / 4) :: ((c % 4) * 64 + d) :: b64quanta rest
  | [a, b, c] => [a * 4 + b / 16, (b % 16) * 16 + c / 4]
  | [a, b] => [a * 4 + b / 16]
  | _ => []

/-- Model of `base64.b64decode` as called by `_persist_base64_media`:
characters outside the alphabet are discarded, data stops at the first
padding character, and a data length inconsistent with the padding raises
`binascii.Error` (modelled as `Except.error`). -/
def b64decode (s : String) : Except Unit (List Nat) :=
  let cs := s.data.filter (fun c => (b64val c).isSome || c == '=')
  let body := cs.takeWhile (fun c => c != '=')
  let pad := cs.length - body.length
  if (body.length + pad) % 4 ≠ 0 ∨ body.length % 4 = 1 then Except.error ()
  else Except.ok (b64quanta (body.filterMap b64val))

/-- `OpenAIService._persist_base64_media`: absent or empty payloads report no
URL, a failed decode is swallowed and reports no URL, otherwise the decoded
bytes are persisted. -/
def persistBase64Media (storage : Option AzureBlobStorageConfig) (env : UploadEnv)
    (base64_payload : Option String) (category extension : String)
    (contentType : Option String) : Except String (Option String) × List Call :=
  match base64_payload with
  | none => (Except.ok none, [])
  | some p =>
    if p = "" then (Except.ok none, [])
    else
      match b64decode p with
      | Except.error _ => (Except.ok none, [])
      | Except.ok bytes => persistMediaBytes storage env bytes category extension contentType

/-- The message raised by `OpenAIService._require_blob_url`. -/
def missingUrlMsg (asset_type : String) : String :=
  "Unable to produce a publicly accessible " ++ asset_type ++ " asset URL. " ++
    STORAGE_REQUIRED_MSG

/-- `OpenAIService._require_blob_url`: a falsy blob URL (absent or empty)
raises the missing-asset-URL error. -/
def requireBlobUrl (blob_url : Option String) (asset_type : String) :
    Except String String :=
  match blob_url with
  | some u => if u = "" then Except.error (missingUrlMsg asset_type) else Except.ok u
  | none => Except.error (missingUrlMsg asset_type)

/-- The validation error message for image quality in
`OpenAIService.generate_image` (`sorted` puts the allowed set in the order
auto, high, low, medium). -/
def qualityErrMsg (quality : String) : String :=
  "quality must be one of auto, high, low, medium (received: " ++ pyRepr quality ++ ")"

/-- The quality normalization block of `OpenAIService.generate_image`:
lowercase, map the legacy aliases, then check the closed set. -/
def normalizeQuality (quality : String) : Except String String :=
  let nq := pyLower quality
  let nq2 := match nq with
    | "standard" => "medium"
    | "hd" => "high"
    | _ => nq
  if nq2 = "low" ∨ nq2 = "medium" ∨ nq2 = "high" ∨ nq2 = "auto" then Except.ok nq2
  else Except.error (qualityErrMsg quality)

/-- The validation error message for image size in
`OpenAIService.generate_image`. -/
def sizeErrMsg (size : String) : String :=
  "size must be one of 1024x1024, 1024x1536, 1536x1024, auto (received: " ++
    pyRepr size ++ ")"

/-- The size normalization block of `OpenAIService.generate_image`. -/
def normalizeSize (size : String) : Except String String :=
  let ns := pyLower size
  if ns = "1024x1024" ∨ ns = "1024x1536" ∨ ns = "1536x1024" ∨ ns = "auto" then
    Except.ok ns
  else Except.error (sizeErrMsg size)

/-- One element of `response.data` in the Images API response. -/
structure ImageItem where
  b64_json : Option String
  revised_prompt : Option String
  deriving DecidableEq, Repr

/-- The Images API response consumed by `generate_image`. -/
structure ImagesResponse where
  data : List ImageItem
  created : Int
  model : Option String
  deriving DecidableEq, Repr

/-- One entry of the normalized `images` list. -/
structure ImageEntry where
  blob_url : String
  revised_prompt : Option String
  deriving DecidableEq, Repr

/-- The normalized result of `generate_image`. -/
structure ImageResult where
  model : String
  created : Int
  images : List ImageEntry
  deriving DecidableEq, Repr

/-- The persistence loop of `OpenAIService.generate_image`: each item is
decoded, persisted and checked with `_require_blob_url`; the first failure
raises.  `envs i` supplies the uploader nondeterminism of the `i`-th item. -/
def persistImageItems (storage : Option AzureBlobStorageConfig)
    (envs : Nat → UploadEnv) (items : List ImageItem) (idx : Nat) :
    Except String (List ImageEntry) × List Call :=
  match items with
  | [] => (Except.ok [], [])
  | item :: rest =>
    let p := persistBase64Media storage (envs idx) item.b64_json "images" "png"
      (some "image/png")
    match p.1 with
    | Except.error e => (Except.error e, p.2)
    | Except.ok opt =>
      match requireBlobUrl opt "image" with
      | Except.error e => (Except.error e, p.2)
      | Except.ok url =>
        let r := persistImageItems storage envs rest (idx + 1)
        match r.1 with
        | Except.error e => (Except.error e, p.2 ++ r.2)
        | Except.ok entries =>
          (Except.ok ({ blob_url := url, revised_prompt := item.revised_prompt } :: entries),
           p.2 ++ r.2)

/-- `OpenAIService.generate_image`: quality then size are validated before the
provider call; the provider response `resp` is a parameter; each returned item
is persisted and wrapped. -/
def generateImage (cfg : OpenAIConfig) (storage : Option AzureBlobStorageConfig)
    (envs : Nat → UploadEnv) (resp : ImagesResponse)
    (prompt size quality : String) (count : Nat) (user : Option String) :
    Except String ImageResult × List Call :=
  match normalizeQuality quality with
  | Except.error e => (Except.error e, [])
  | Except.ok _nq =>
    match normalizeSize size with
    | Except.error e => (Except.error e, [])
    | Except.ok _ns =>
      let r := persistImageItems storage envs resp.data 0
      match r.1 with
      | Except.error e => (Except.error e, Call.providerImage :: r.2)
      | Except.ok entries =>
        (Except.ok { model := resp.model.getD cfg.image_model, created := resp.created,
                     images := entries },
         Call.providerImage :: r.2)

/-- The normalized result of `generate_audio`. -/
structure AudioResult where
  voice : String
  format : String
  byte_length : Nat
  blob_url : String
  deriving DecidableEq, Repr

/-- `OpenAIService.generate_audio`: the provider speech bytes are a parameter;
they are persisted under the `audio` category and checked with
`_require_blob_url`. -/
def generateAudio (cfg : OpenAIConfig) (storage : Option AzureBlobStorageConfig)
    (env : UploadEnv) (audio_bytes : List Nat) (model voice : Option String)
    (response_format : String) : Except String AudioResult × List Call :=
  let final_voice := pyOr voice cfg.default_voice
  let p := persistMediaBytes storage env audio_bytes "audio" response_format
    (some (audioContentType response_format))
  let calls := Call.providerAudio :: p.2
  match p.1 with
  | Except.error e => (Except.error e, calls)
  | Except.ok opt =>
    match requireBlobUrl opt "audio" with
    | Except.error e => (Except.error e, calls)
    | Except.ok url =>
      (Except.ok { voice := final_voice, format := response_format,
                   byte_length := audio_bytes.length, blob_url := url },
       calls)

/-- The video job handle returned by `videos.create_and_poll`. -/
structure VideoJob where
  id : String
  status : String
  model : String
  size : String
  seconds : Int
  deriving DecidableEq, Repr

/-- Provider-side outcome of one video request: the polled job and the bytes
returned by `videos.download_content`. -/
structure VideoEnv where
  job : VideoJob
  bytes : List Nat
  deriving DecidableEq, Repr

/-- The normalized result of `generate_video`. -/
structure VideoResult where
  video_id : String
  status : String
  model : String
  size : String
  seconds : Int
  variant : String
  byte_length : Nat
  blob_url : String
  deriving DecidableEq, Repr

/-- `OpenAIService.generate_video`: the azure variant fails before any
provider call; a non-completed job is a fatal error carrying id and status;
otherwise the downloaded bytes are persisted under `videos`. -/
def generateVideo (cfg : OpenAIConfig) (storage : Option AzureBlobStorageConfig)
    (env : UploadEnv) (venv : VideoEnv) (prompt : String) (model : Option String)
    (seconds : Int) (size variant : String) : Except String VideoResult × List Call :=
  if cfg.provider = Provider.azure then
    (Except.error "Azure OpenAI does not currently support video generation", [])
  else
    let _final_model := pyOr model cfg.video_model
    if venv.job.status ≠ "completed" then
      (Except.error ("Video job " ++ venv.job.id ++
        " did not complete successfully (status=" ++ venv.job.status ++ ")"),
       [Call.providerVideoCreate])
    else
      let meta := videoVariantMeta variant
      let p := persistMediaBytes storage env venv.bytes "videos" meta.1 (some meta.2)
      let calls := Call.providerVideoCreate :: Call.providerVideoDownload :: p.2
      match p.1 with
      | Except.error e => (Except.error e, calls)
      | Except.ok opt =>
        match requireBlobUrl opt "video" with
        | Except.error e => (Except.error e, calls)
        | Except.ok url =>
          (Except.ok { video_id := venv.job.id, status := venv.job.status,
                       model := venv.job.model, size := venv.job.size,
                       seconds := venv.job.seconds, variant := variant,
                       byte_length := venv.bytes.length, blob_url := url },
           calls)

/-- The tool-level `generate_video` of `app.py`: `seconds` and `variant` are
validated before the service is invoked. -/
def toolGenerateVideo (cfg : OpenAIConfig) (storage : Option AzureBlobStorageConfig)
    (env : UploadEnv) (venv : VideoEnv) (prompt : String) (model : Option String)
    (seconds : Int) (size variant : String) : Except String VideoResult × List Call :=
  if ¬(seconds = 4 ∨ seconds = 8 ∨ seconds = 12) then
    (Except.error "seconds must be one of 4, 8, or 12", [])
  else if ¬(variant = "video" ∨ variant = "thumbnail" ∨ variant = "spritesheet") then
    (Except.error "variant must be video, thumbnail, or spritesheet", [])
  else generateVideo cfg storage env venv prompt model seconds size variant

/-- The `response_format` directive built by `OpenAIService.chat_completion`;
`rfType` models the `type` key of the dictionary sent to the provider. -/
structure ResponseFormatParam where
  rfType : String
  deriving DecidableEq, Repr

/-- The `response_format` translation of `OpenAIService.chat_completion`:
falsy input means no constraint, lowercase `json` becomes `json_object`, any
other string is passed through as the type name. -/
def responseFormatParam (response_format : Option String) : Option ResponseFormatParam :=
  match response_format with
  | none => none
  | some s =>
    if s = "" then none
    else if pyLower s = "json" then some { rfType := "json_object" }
    else some { rfType := s }

/-- One element of an iterable chat message content, as inspected by
`OpenAIService._extract_text`: a dict tagged `text` (with its optional `text`
value), a dict tagged `tool_call` (carrying its `str` rendering), any other
dict, or a non-dict element (carrying its `str` rendering). -/
inductive Chunk
  | text (t : Option String)
  | toolCall (rendered : String)
  | otherDict
  | raw (rendered : String)
  deriving DecidableEq, Repr

/-- The shape of a chat message content value seen by `_extract_text`. -/
inductive ChatContent
  | none
  | str (s : String)
  | chunks (l : List Chunk)
  deriving DecidableEq, Repr

/-- The strings appended for one chunk by the loop in `_extract_text`. -/
def chunkPieces : Chunk → List String
  | Chunk.text (some t) => if t = "" then [] else [t]
  | Chunk.text Option.none => []
  | Chunk.toolCall rendered => [rendered]
  | Chunk.otherDict => []
  | Chunk.raw rendered => [rendered]

/-- `OpenAIService._extract_text`. -/
def extractText : ChatContent → String
  | ChatContent.none => ""
  | ChatContent.str s => s
  | ChatContent.chunks l => String.join (List.flatten (List.map chunkPieces l))

/-- A sample storage configuration used to instantiate theorems. -/
def sampleStorage : AzureBlobStorageConfig :=
  { connection_string := "cs", container := "media",
    public_base_url := "https://cdn.example.com/media",
    pathPfx := some "assets", image_root := "images", audio_root := "audio",
    video_root := "videos" }

/-- A sample direct-variant provider configuration. -/
def sampleOpenAI : OpenAIConfig :=
  { provider := Provider.openai, api_key := "k", base_url := none,
    organization := none, azure_endpoint := none, azure_api_version := none,
    azure_ad_token := none, chat_model := "gpt-4.1-mini",
    image_model := "gpt-image-1", audio_model := "gpt-4o-mini-tts",
    default_voice := "alloy", video_model := "sora-2" }

/-- A sample managed-deployment provider configuration. -/
def sampleAzure : OpenAIConfig :=
  { provider := Provider.azure, api_key := "k", base_url := none,
    organization := none, azure_endpoint := some "https://example.openai.azure.com",
    azure_api_version := some "2024-10-21", azure_ad_token := none,
    chat_model := "gpt-4o-mini", image_model := "gpt-image-1",
    audio_model := "gpt-4o-mini-tts", default_voice := "alloy",
    video_model := "sora-2" }

/-- A sample successful upload environment. -/
def sampleEnv : UploadEnv :=
  { now := { year := 2026, month := 10, day := 12, hour := 8, minute := 30, second := 5 },
    rand := 0xdeadbeef, fails := false }

/-- A sample upload environment in which the blob upload raises. -/
def sampleFailEnv : UploadEnv :=
  { now := { year := 2026, month := 10, day := 12, hour := 8, minute := 30, second := 5 },
    rand := 0xdeadbeef, fails := true }

/-- The closed set of accepted image qualities, in source order. -/
def allowedQualities : List String := ["low", "medium", "high", "auto"]

theorem padNum_length (w n : Nat) : (padNum w n).length = w := by
  induction w generalizing n with
  | zero => rfl
  | succ w ih => simp [padNum, ih]

theorem digitChar_mem (d : Nat) (h : d < 10) : digitChar d ∈ decimalChars := by
  interval_cases d <;> decide

theorem padNum_mem (w n : Nat) : ∀ c ∈ padNum w n, c ∈ decimalChars := by
  induction w generalizing n with
  | zero => intro c hc; cases hc
  | succ w ih =>
    intro c hc
    simp only [padNum, List.mem_append, List.mem_singleton] at hc
    rcases hc with hc | hc
    · exact ih _ c hc
    · subst hc; exact digitChar_mem _ (Nat.mod_lt _ (by decide))

theorem hexPad_length (w n : Nat) : (hexPad w n).length = w := by
  induction w generalizing n with
  | zero => rfl
  | succ w ih => simp [hexPad, ih]

theorem hexDigitChar_mem (d : Nat) (h : d < 16) : hexDigitChar d ∈ lowerHexChars := by
  interval_cases d <;> decide

theorem hexPad_mem (w n : Nat) : ∀ c ∈ hexPad w n, c ∈ lowerHexChars := by
  induction w generalizing n with
  | zero => intro c hc; cases hc
  | succ w ih =>
    intro c hc
    simp only [hexPad, List.mem_append, List.mem_singleton] at hc
    rcases hc with hc | hc
    · exact ih _ c hc
    · subst hc; exact hexDigitChar_mem _ (Nat.mod_lt _ (by decide))

theorem strEndsWith_missingUrl (asset : String) :
    strEndsWith STORAGE_REQUIRED_MSG (missingUrlMsg asset) :=
  ⟨"Unable to produce a publicly accessible " ++ asset ++ " asset URL. ",
   by simp [missingUrlMsg, String.append_assoc]⟩

theorem strEndsWith_refl (s : String) : strEndsWith s s := ⟨"", rfl⟩

/-- C1: every persistence call with category `c` and extension `e` produces the
storage path made of the optional non-empty path prefix, the root resolved for
`c`, and a filename `timestamp-hex.e` where the timestamp is 15 characters of
shape `yyyyMMddTHHmmss` (8 digits, a literal `T`, 6 digits) and the hex part is
32 lowercase hexadecimal characters; empty segments are dropped, the segments
are joined by `/`, and the returned URL is the configured public base URL, a
`/`, then that path. -/
theorem blob_path_format (cfg : AzureBlobStorageConfig) (env : UploadEnv)
    (category extension contentType : String) (hf : env.fails = false) :
    (upload cfg env category extension contentType).1 =
      Except.ok (cfg.public_base_url ++ "/" ++ buildBlobName cfg env category extension) ∧
    ∃ ts hx,
      buildBlobName cfg env category extension =
        String.intercalate "/" (List.filter (fun seg => seg != "")
          [cfg.pathPfx.getD "", rootForCategory cfg category,
           ts ++ "-" ++ hx ++ "." ++ extension]) ∧
      hx.length = 32 ∧ (∀ c ∈ hx.data, c ∈ lowerHexChars) ∧
      ts.length = 15 ∧
      (∃ d1 d2, ts.data = d1 ++ 'T' :: d2 ∧ d1.length = 8 ∧ d2.length = 6 ∧
        (∀ c ∈ d1 ++ d2, c ∈ decimalChars)) := by
  constructor
  · simp [upload, hf]
  · refine ⟨formatTimestamp env.now, uuidHex env.rand, rfl, ?_, ?_, ?_, ?_⟩
    · show (hexPad 32 env.rand).length = 32
      exact hexPad_length 32 env.rand
    · intro c hc
      exact hexPad_mem 32 env.rand c hc
    · show (padNum 4 env.now.year ++ (padNum 2 env.now.month ++ (padNum 2 env.now.day ++
        'T' :: (padNum 2 env.now.hour ++ (padNum 2 env.now.minute ++
          padNum 2 env.now.second))))).length = 15
      simp [padNum_length]
    · refine ⟨padNum 4 env.now.year ++ padNum 2 env.now.month ++ padNum 2 env.now.day,
        padNum 2 env.now.hour ++ padNum 2 env.now.minute ++ padNum 2 env.now.second,
        by simp [formatTimestamp], by simp [padNum_length], by simp [padNum_length], ?_⟩
      intro c hc
      simp only [List.append_assoc, List.mem_append] at hc
      rcases hc with hc | hc | hc | hc | hc | hc <;> exact padNum_mem _ _ c hc

/-- C1 witness: a concrete upload with the sample configuration produces
exactly the expected public URL. -/
theorem blob_path_format_witness :
    (upload sampleStorage sampleEnv "images" "png" "image/png").1 =
      Except.ok
        "https://cdn.example.com/media/assets/images/20261012T083005-000000000000000000000000deadbeef.png" := by
  have h := blob_path_format sampleStorage sampleEnv "images" "png" "image/png" rfl
  rw [h.1]
  rfl

/-- C3: image quality normalization lowercases the input, maps the legacy
aliases `standard` to `medium` and `hd` to `high`, accepts the closed set
`low/medium/high/auto` verbatim, and rejects everything else with a validation
error naming the accepted set and the received value, before any provider
call is recorded. -/
theorem quality_normalization (q : String) (cfg : OpenAIConfig)
    (storage : Option AzureBlobStorageConfig) (envs : Nat → UploadEnv)
    (resp : ImagesResponse) (prompt size : String) (count : Nat) (user : Option String) :
    (pyLower q = "standard" → normalizeQuality q = Except.ok "medium") ∧
    (pyLower q = "hd" → normalizeQuality q = Except.ok "high") ∧
    (pyLower q ∈ allowedQualities → normalizeQuality q = Except.ok (pyLower q)) ∧
    (pyLower q ∉ allowedQualities → pyLower q ≠ "standard" → pyLower q ≠ "hd" →
      normalizeQuality q = Except.error (qualityErrMsg q) ∧
      generateImage cfg storage envs resp prompt size q count user =
        (Except.error (qualityErrMsg q), [])) := by
  refine ⟨?_, ?_, ?_, ?_⟩
  · intro h; simp [normalizeQuality, h]
  · intro h; simp [normalizeQuality, h]
  · intro h
    simp only [allowedQualities, List.mem_cons, List.mem_singleton,
      List.not_mem_nil, or_false] at h
    rcases h with h | h | h | h <;> simp [normalizeQuality, h]
  · intro hmem h1 h2
    simp only [allowedQualities, List.mem_cons, List.mem_singleton,
      List.not_mem_nil, or_false] at hmem
    push_neg at hmem
    obtain ⟨n1, n2, n3, n4⟩ := hmem
    have he : normalizeQuality q = Except.error (qualityErrMsg q) := by
      simp [normalizeQuality, h1, h2, n1, n2, n3, n4]
    exact ⟨he, by simp [generateImage, he]⟩

/-- C3 witness: each of standard, hd, LOW, High, auto normalizes into the
closed set, and an unknown quality fails with the validation error and no
provider call. -/
theorem quality_normalization_witness :
    normalizeQuality "standard" = Except.ok "medium" ∧
    normalizeQuality "hd" = Except.ok "high" ∧
    normalizeQuality "LOW" = Except.ok "low" ∧
    normalizeQuality "High" = Except.ok "high" ∧
    normalizeQuality "auto" = Except.ok "auto" ∧
    normalizeQuality "ultra" = Except.error (qualityErrMsg "ultra") ∧
    generateImage sampleOpenAI none (fun _ => sampleEnv) ⟨[], 0, none⟩
        "p" "auto" "ultra" 1 none = (Except.error (qualityErrMsg "ultra"), []) := by
  have hs := quality_normalization "standard" sampleOpenAI none (fun _ => sampleEnv)
    ⟨[], 0, none⟩ "p" "auto" 1 none
  have hh := quality_normalization "hd" sampleOpenAI none (fun _ => sampleEnv)
    ⟨[], 0, none⟩ "p" "auto" 1 none
  have hl := quality_normalization "LOW" sampleOpenAI none (fun _ => sampleEnv)
    ⟨[], 0, none⟩ "p" "auto" 1 none
  have hg := quality_normalization "High" sampleOpenAI none (fun _ => sampleEnv)
    ⟨[], 0, none⟩ "p" "auto" 1 none
  have ha := quality_normalization "auto" sampleOpenAI none (fun _ => sampleEnv)
    ⟨[], 0, none⟩ "p" "auto" 1 none
  have hu := quality_normalization "ultra" sampleOpenAI none (fun _ => sampleEnv)
    ⟨[], 0, none⟩ "p" "auto" 1 none
  have hue := hu.2.2.2 (by decide) (by decide) (by decide)
  exact ⟨hs.1 rfl, hh.2.1 rfl, hl.2.2.1 (by decide), hg.2.2.1 (by decide),
    ha.2.2.1 (by decide), hue.1, hue.2⟩

/-- C4: against the managed-deployment (azure) backend variant, video
generation fails with the explicit unsupported-capability error and makes
zero provider calls, whatever the prompt, model, seconds, size or variant. -/
theorem video_unsupported_on_azure (cfg : OpenAIConfig)
    (storage : Option AzureBlobStorageConfig) (env : UploadEnv) (venv : VideoEnv)
    (prompt : String) (model : Option String) (seconds : Int) (size variant : String)
    (h : cfg.provider = Provider.azure) :
    generateVideo cfg storage env venv prompt model seconds size variant =
      (Except.error "Azure OpenAI does not currently support video generation", []) := by
  simp [generateVideo, h]

/-- C4 witness: a concrete azure-configured video request fails with the
unsupported-capability error and an empty call trace. -/
theorem video_unsupported_on_azure_witness :
    generateVideo sampleAzure none sampleEnv
        ⟨⟨"j", "completed", "sora-2", "720x1280", 8⟩, [1]⟩ "p" none 8 "720x1280" "video" =
      (Except.error "Azure OpenAI does not currently support video generation", []) :=
  video_unsupported_on_azure sampleAzure none sampleEnv
    ⟨⟨"j", "completed", "sora-2", "720x1280", 8⟩, [1]⟩ "p" none 8 "720x1280" "video" rfl

/-- C6: a tool-level video request whose seconds value is not 4, 8 or 12
fails with the validation error and makes zero provider calls. -/
theorem video_seconds_validated (cfg : OpenAIConfig)
    (storage : Option AzureBlobStorageConfig) (env : UploadEnv) (venv : VideoEnv)
    (prompt : String) (model : Option String) (seconds : Int) (size variant : String)
    (h : ¬(seconds = 4 ∨ seconds = 8 ∨ seconds = 12)) :
    toolGenerateVideo cfg storage env venv prompt model seconds size variant =
      (Except.error "seconds must be one of 4, 8, or 12", []) := by
  simp only [toolGenerateVideo, if_pos h]

/-- C6 witness: seconds = 5 is rejected before any network interaction. -/
theorem video_seconds_validated_witness :
    toolGenerateVideo sampleOpenAI none sampleEnv
        ⟨⟨"j", "completed", "sora-2", "720x1280", 5⟩, [1]⟩ "p" none 5 "720x1280" "video" =
      (Except.error "seconds must be one of 4, 8, or 12", []) :=
  video_seconds_validated sampleOpenAI none sampleEnv
    ⟨⟨"j", "completed", "sora-2", "720x1280", 5⟩, [1]⟩ "p" none 5 "720x1280" "video"
    (by decide)

/-- C7 counterexample: the empty string is an unknown category, yet it does
not resolve to its own literal name: it resolves to "media". -/
theorem category_root_counterexample :
    rootForCategory sampleStorage "" = "media" ∧ rootForCategory sampleStorage "" ≠ "" := by
  exact ⟨rfl, by decide⟩

/-- C7 (amended): resolution first normalizes the category (an empty category
becomes "media", surrounding slashes are stripped, a category that strips to
nothing becomes "media") and then applies the fixed mapping to the normalized
name: image/images resolve to the configured image root, video/videos to the
configured video root, audio to the configured audio root, and every other
normalized name resolves to itself; hence persisting under image and under
images yields paths rooted at the same configured image root. -/
theorem category_root_mapping (cfg : AzureBlobStorageConfig) (category : String) :
    rootForCategory cfg "image" = cfg.image_root ∧
    rootForCategory cfg "images" = cfg.image_root ∧
    rootForCategory cfg "video" = cfg.video_root ∧
    rootForCategory cfg "videos" = cfg.video_root ∧
    rootForCategory cfg "audio" = cfg.audio_root ∧
    (normalizeCategory category ∉ ["images", "image", "audio", "videos", "video"] →
      rootForCategory cfg category = normalizeCategory category) ∧
    (normalizeCategory category = "images" ∨ normalizeCategory category = "image" →
      rootForCategory cfg category = cfg.image_root) ∧
    (normalizeCategory category = "videos" ∨ normalizeCategory category = "video" →
      rootForCategory cfg category = cfg.video_root) ∧
    (normalizeCategory category = "audio" →
      rootForCategory cfg category = cfg.audio_root) ∧
    rootForCategory cfg "" = "media" ∧
    rootForCategory cfg "image" = rootForCategory cfg "images" := by
  refine ⟨rfl, rfl, rfl, rfl, rfl, ?_, ?_, ?_, ?_, rfl, rfl⟩
  · intro hmem
    simp only [List.mem_cons, List.mem_singleton, List.not_mem_nil, or_false] at hmem
    push_neg at hmem
    obtain ⟨n1, n2, n3, n4, n5⟩ := hmem
    simp [rootForCategory, n1, n2, n3, n4, n5]
  · rintro (h | h) <;> simp [rootForCategory, h]
  · rintro (h | h) <;> simp [rootForCategory, h]
  · intro h
    simp [rootForCategory, h]

/-- C7 witness: a plain unknown category resolves to itself, a slashed unknown
category resolves to its stripped name, a slash-only category resolves to
"media", a slashed known category resolves through the mapping, and image and
images resolve to the same configured root. -/
theorem category_root_mapping_witness :
    rootForCategory sampleStorage "custom" = "custom" ∧
    rootForCategory sampleStorage "/custom/" = "custom" ∧
    rootForCategory sampleStorage "///" = "media" ∧
    rootForCategory sampleStorage "/image/" = sampleStorage.image_root ∧
    rootForCategory sampleStorage "image" = rootForCategory sampleStorage "images" := by
  have h1 := category_root_mapping sampleStorage "custom"
  have h2 := category_root_mapping sampleStorage "/custom/"
  have h3 := category_root_mapping sampleStorage "///"
  have h4 := category_root_mapping sampleStorage "/image/"
  exact ⟨h1.2.2.2.2.2.1 (by decide), h2.2.2.2.2.2.1 (by decide),
    h3.2.2.2.2.2.1 (by decide), h4.2.2.2.2.2.2.1 (Or.inr (by decide)),
    h1.2.2.2.2.2.2.2.2.2.2⟩

/-- C8 counterexample: "JSON" is a non-empty string different from "json",
yet it is not passed through as the named format with its own type name: the
translation case-folds it into the structured-output directive. -/
theorem response_format_counterexample :
    responseFormatParam (some "JSON") = some { rfType := "json_object" } ∧
    responseFormatParam (some "JSON") ≠ some { rfType := "JSON" } := by
  exact ⟨rfl, by decide⟩

/-- C8 (amended): absent or empty response_format yields no constraint; a
string whose lowercase form is "json" becomes the structured-output directive
json_object; any other non-empty string is passed through as the named
format. -/
theorem response_format_translation (s : String) :
    responseFormatParam none = none ∧
    responseFormatParam (some "") = none ∧
    (pyLower s = "json" → responseFormatParam (some s) = some { rfType := "json_object" }) ∧
    (s ≠ "" → pyLower s ≠ "json" → responseFormatParam (some s) = some { rfType := s }) := by
  refine ⟨rfl, rfl, ?_, ?_⟩
  · intro h
    have hs : s ≠ "" := by
      intro e
      rw [e] at h
      exact absurd h (by decide)
    simp [responseFormatParam, hs, h]
  · intro h1 h2
    simp [responseFormatParam, h1, h2]

/-- C8 witness: "json" becomes json_object and "xml" is passed through. -/
theorem response_format_translation_witness :
    responseFormatParam (some "json") = some { rfType := "json_object" } ∧
    responseFormatParam (some "xml") = some { rfType := "xml" } :=
  ⟨(response_format_translation "json").2.2.1 rfl,
   (response_format_translation "xml").2.2.2 (by decide) (by decide)⟩

/-- C2: with no storage configuration (hence no uploader), an audio, video or
image generation call whose provider payload is non-empty fails with an error
that carries the storage-not-configured message naming the missing
configuration; no result with a null or missing URL is returned. -/
theorem storage_absent_fails (cfg : OpenAIConfig) (env : UploadEnv) (venv : VideoEnv)
    (envs : Nat → UploadEnv) (audio_bytes : List Nat) (amodel avoice vmodel : Option String)
    (fmt prompt vprompt size quality p vsize vvariant nq ns : String)
    (item : ImageItem) (rest : List ImageItem) (created : Int) (rmodel : Option String)
    (count : Nat) (user : Option String) (seconds : Int) :
    (audio_bytes ≠ [] →
      (generateAudio cfg none env audio_bytes amodel avoice fmt).1 =
        Except.error STORAGE_REQUIRED_MSG) ∧
    (cfg.provider = Provider.openai → venv.job.status = "completed" → venv.bytes ≠ [] →
      (generateVideo cfg none env venv vprompt vmodel seconds vsize vvariant).1 =
        Except.error STORAGE_REQUIRED_MSG) ∧
    (item.b64_json = some p → p ≠ "" →
      normalizeQuality quality = Except.ok nq → normalizeSize size = Except.ok ns →
      ∃ m, (generateImage cfg none envs ⟨item :: rest, created, rmodel⟩
              prompt size quality count user).1 = Except.error m ∧
        strEndsWith STORAGE_REQUIRED_MSG m) := by
  refine ⟨?_, ?_, ?_⟩
  · intro hb
    simp [generateAudio, persistMediaBytes, hb]
  · intro hp hs hb
    simp [generateVideo, hp, hs, persistMediaBytes, hb]
  · intro hj hp hq hsz
    simp only [generateImage, hq, hsz]
    cases hd : b64decode p with
    | error e =>
      refine ⟨missingUrlMsg "image", ?_, strEndsWith_missingUrl "image"⟩
      simp [persistImageItems, persistBase64Media, hj, hp, hd, requireBlobUrl]
    | ok bytes =>
      cases bytes with
      | nil =>
        refine ⟨missingUrlMsg "image", ?_, strEndsWith_missingUrl "image"⟩
        simp [persistImageItems, persistBase64Media, persistMediaBytes, hj, hp, hd,
          requireBlobUrl]
      | cons b bs =>
        refine ⟨STORAGE_REQUIRED_MSG, ?_, strEndsWith_refl _⟩
        simp [persistImageItems, persistBase64Media, persistMediaBytes, hj, hp, hd]

/-- C2 witness: with storage absent, concrete audio, video and image calls
with non-empty provider payloads all fail with the storage-not-configured
message. -/
theorem storage_absent_fails_witness :
    (generateAudio sampleOpenAI none sampleEnv [1] none none "mp3").1 =
      Except.error STORAGE_REQUIRED_MSG ∧
    (generateVideo sampleOpenAI none sampleEnv
        ⟨⟨"job1", "completed", "sora-2", "720x1280", 4⟩, [9]⟩ "a cat" none 4 "720x1280"
        "video").1 = Except.error STORAGE_REQUIRED_MSG ∧
    (∃ m, (generateImage sampleOpenAI none (fun _ => sampleEnv)
          ⟨[⟨some "AAAA", none⟩], 0, none⟩ "a cat" "auto" "high" 1 none).1 =
        Except.error m ∧ strEndsWith STORAGE_REQUIRED_MSG m) := by
  have h := storage_absent_fails sampleOpenAI sampleEnv
    ⟨⟨"job1", "completed", "sora-2", "720x1280", 4⟩, [9]⟩ (fun _ => sampleEnv) [1]
    none none none "mp3" "a cat" "a cat" "auto" "high" "AAAA" "720x1280" "video"
    "high" "auto" ⟨some "AAAA", none⟩ [] 0 none 1 none 4
  exact ⟨h.1 (by decide), h.2.1 rfl rfl (by decide), h.2.2 rfl (by decide) rfl rfl⟩

/-- C5: a raising upload is swallowed (persistence returns no URL after
attempting the blob upload), a failed base64 decode is swallowed (no URL, no
upload attempted), and the caller-facing operation then fails with the single
missing-artifact-URL error shape. -/
theorem persistence_failure_swallowed (cfg : AzureBlobStorageConfig) (oc : OpenAIConfig)
    (env : UploadEnv) (payload audio_bytes : List Nat)
    (category extension p asset fmt : String) (ct : Option String)
    (model voice : Option String) :
    (env.fails = true → payload ≠ [] →
      persistMediaBytes (some cfg) env payload category extension ct =
        (Except.ok none, [Call.blobUpload category (sanitizeExtension extension)]) ∧
      requireBlobUrl none asset = Except.error (missingUrlMsg asset)) ∧
    (b64decode p = Except.error () → p ≠ "" →
      persistBase64Media (some cfg) env (some p) category extension ct =
        (Except.ok none, []) ∧
      requireBlobUrl none asset = Except.error (missingUrlMsg asset)) ∧
    (env.fails = true → audio_bytes ≠ [] →
      (generateAudio oc (some cfg) env audio_bytes model voice fmt).1 =
        Except.error (missingUrlMsg "audio")) := by
  refine ⟨?_, ?_, ?_⟩
  · intro hf hp
    refine ⟨?_, rfl⟩
    simp [persistMediaBytes, upload, hf, hp]
  · intro hd hp
    refine ⟨?_, rfl⟩
    simp [persistBase64Media, hp, hd]
  · intro hf hb
    simp [generateAudio, persistMediaBytes, upload, hf, hb, requireBlobUrl]

/-- C5 witness: a concrete raising upload and a concrete malformed base64
payload are both swallowed, and the audio operation fails with the
missing-artifact-URL error. -/
theorem persistence_failure_swallowed_witness :
    persistMediaBytes (some sampleStorage) sampleFailEnv [7] "images" "png"
        (some "image/png") = (Except.ok none, [Call.blobUpload "images" "png"]) ∧
    persistBase64Media (some sampleStorage) sampleFailEnv (some "A") "images" "png"
        (some "image/png") = (Except.ok none, []) ∧
    (generateAudio sampleOpenAI (some sampleStorage) sampleFailEnv [7] none none "mp3").1 =
      Except.error (missingUrlMsg "audio") := by
  have h := persistence_failure_swallowed sampleStorage sampleOpenAI sampleFailEnv [7] [7]
    "images" "png" "A" "audio" "mp3" (some "image/png") none none
  exact ⟨(h.1 rfl (by decide)).1, (h.2.1 rfl (by decide)).1, h.2.2 rfl (by decide)⟩

theorem join_nil : String.join [] = "" := rfl

theorem join_cons (x : String) (xs : List String) :
    String.join (x :: xs) = x ++ String.join xs := by
  rcases x with ⟨d⟩
  rw [String.join_eq, String.join_eq]
  rfl

theorem join_append (a b : List String) :
    String.join (a ++ b) = String.join a ++ String.join b := by
  induction a with
  | nil => rfl
  | cons x xs ih =>
    rw [List.cons_append, join_cons, ih, join_cons, String.append_assoc]

theorem extractText_cons (c : Chunk) (l : List Chunk) :
    extractText (ChatContent.chunks (c :: l)) =
      String.join (chunkPieces c) ++ extractText (ChatContent.chunks l) := by
  simp only [extractText, List.map_cons, List.flatten_cons, join_append]

/-- C9 counterexample: a non-dict chunk is neither marked as text nor as a
tool call, yet its textual rendering is included in the extracted text
instead of being excluded. -/
theorem chat_text_extraction_counterexample :
    extractText (ChatContent.chunks [Chunk.raw "x"]) = "x" ∧
    extractText (ChatContent.chunks [Chunk.raw "x"]) ≠ "" :=
  ⟨rfl, by decide⟩

/-- C9 (amended): text extraction returns a plain string unchanged and the
empty string for absent content; over a chunk sequence it concatenates, in
order, the non-empty text of chunks marked as text and the textual rendering
of chunks marked as tool calls and of non-dict chunks, while dict chunks of
any other kind contribute nothing. -/
theorem chat_text_extraction (s t rendered : String) (l : List Chunk) :
    extractText ChatContent.none = "" ∧
    extractText (ChatContent.str s) = s ∧
    extractText (ChatContent.chunks []) = "" ∧
    extractText (ChatContent.chunks (Chunk.text (some t) :: l)) =
      (if t = "" then "" else t) ++ extractText (ChatContent.chunks l) ∧
    extractText (ChatContent.chunks (Chunk.text Option.none :: l)) =
      extractText (ChatContent.chunks l) ∧
    extractText (ChatContent.chunks (Chunk.toolCall rendered :: l)) =
      rendered ++ extractText (ChatContent.chunks l) ∧
    extractText (ChatContent.chunks (Chunk.otherDict :: l)) =
      extractText (ChatContent.chunks l) ∧
    extractText (ChatContent.chunks (Chunk.raw rendered :: l)) =
      rendered ++ extractText (ChatContent.chunks l) := by
  refine ⟨rfl, rfl, rfl, ?_, ?_, ?_, ?_, ?_⟩
  · rw [extractText_cons]
    by_cases ht : t = "" <;>
      simp [chunkPieces, ht, join_cons, join_nil, String.empty_append, String.append_empty]
  · rw [extractText_cons]
    simp [chunkPieces, join_nil, String.empty_append]
  · rw [extractText_cons]
    simp [chunkPieces, join_cons, join_nil, String.empty_append, String.append_empty]
  · rw [extractText_cons]
    simp [chunkPieces, join_nil, String.empty_append]
  · rw [extractText_cons]
    simp [chunkPieces, join_cons, join_nil, String.empty_append, String.append_empty]

/-- C10: an empty provider payload reports no URL without attempting any
upload even though storage is configured, and the operation then fails with
the missing-asset-URL error, whose message carries the storage-not-configured
text even though storage is configured. -/
theorem empty_payload_reports_missing (cfg : AzureBlobStorageConfig) (oc : OpenAIConfig)
    (env : UploadEnv) (envs : Nat → UploadEnv) (category extension asset : String)
    (ct : Option String) (model voice : Option String)
    (fmt prompt size quality nq ns : String) (count : Nat) (user : Option String)
    (item : ImageItem) (created : Int) (rmodel : Option String) :
    persistMediaBytes (some cfg) env [] category extension ct = (Except.ok none, []) ∧
    requireBlobUrl none asset = Except.error (missingUrlMsg asset) ∧
    strEndsWith STORAGE_REQUIRED_MSG (missingUrlMsg asset) ∧
    ((generateAudio oc (some cfg) env [] model voice fmt).1 =
        Except.error (missingUrlMsg "audio") ∧
      (generateAudio oc (some cfg) env [] model voice fmt).2 = [Call.providerAudio]) ∧
    (item.b64_json = none ∨ item.b64_json = some "" →
      normalizeQuality quality = Except.ok nq → normalizeSize size = Except.ok ns →
      generateImage oc (some cfg) envs ⟨[item], created, rmodel⟩ prompt size quality
          count user =
        (Except.error (missingUrlMsg "image"), [Call.providerImage])) := by
  refine ⟨rfl, rfl, strEndsWith_missingUrl asset, ⟨?_, ?_⟩, ?_⟩
  · simp [generateAudio, persistMediaBytes, requireBlobUrl]
  · simp [generateAudio, persistMediaBytes, requireBlobUrl]
  · intro hj hq hsz
    rcases hj with hj | hj <;>
      simp [generateImage, hq, hsz, persistImageItems, persistBase64Media,
        requireBlobUrl, hj]

/-- C10 witness: with storage configured, an empty audio payload and an image
item with an absent base64 field fail with the missing-asset-URL error and no
blob upload in the trace. -/
theorem empty_payload_reports_missing_witness :
    persistMediaBytes (some sampleStorage) sampleEnv [] "audio" "mp3"
        (some "audio/mpeg") = (Except.ok none, []) ∧
    (generateAudio sampleOpenAI (some sampleStorage) sampleEnv [] none none "mp3").1 =
      Except.error (missingUrlMsg "audio") ∧
    generateImage sampleOpenAI (some sampleStorage) (fun _ => sampleEnv)
        ⟨[⟨none, none⟩], 0, none⟩ "p" "auto" "high" 1 none =
      (Except.error (missingUrlMsg "image"), [Call.providerImage]) := by
  have h := empty_payload_reports_missing sampleStorage sampleOpenAI sampleEnv
    (fun _ => sampleEnv) "audio" "mp3" "audio" (some "audio/mpeg") none none
    "mp3" "p" "auto" "high" "high" "auto" 1 none ⟨none, none⟩ 0 none
  exact ⟨h.1, h.2.2.2.1.1, h.2.2.2.2 (Or.inl rfl) rfl rfl⟩

end OpenAIMCP
